import Mathlib

/-!
Shallow embedding of src/src/main/flight/altitude.c (butterflight):
altitude/vertical-velocity estimation and altitude-hold control.

Machine integers (int32_t, int16_t) are modelled as Int; the unsigned
32-bit timer arithmetic is modelled explicitly modulo 2^32.  C float
arithmetic is modelled as exact rational arithmetic; float-to-int
conversions truncate toward zero, matching C.  The mutable module
globals and function statics form the state record AltState; the values
read from collaborating modules (sensors, RC, PID profile, config) form
the read-only record Env.
-/

/-- C integer division for a positive divisor: truncation toward zero.
Used for every division in the C source (all divisors there are
positive). -/
def cdiv (a b : Int) : Int := if 0 ≤ a then a / b else -((-a) / b)

/-- Truncation of a rational toward zero: the C float-to-int conversion. -/
def ratTrunc (q : ℚ) : Int := cdiv q.num (q.den : Int)

/-- Floor of a rational, via Euclidean division of numerator by
denominator. -/
def ratFloor (q : ℚ) : Int := q.num / (q.den : Int)

/-- Modelled from the spec: lrintf from the C math library (not in src/),
round to nearest with ties to even, as used at the velocity readout. -/
def lrintf (q : ℚ) : Int :=
  if q - (ratFloor q : ℚ) < 1/2 then ratFloor q
  else if (1 : ℚ)/2 < q - (ratFloor q : ℚ) then ratFloor q + 1
  else if 2 ∣ ratFloor q then ratFloor q else ratFloor q + 1

/-- Modelled from the spec: constrain from common/maths.c (not in src/),
clamping a value to a closed range. -/
def constrain (amt low high : Int) : Int :=
  if amt < low then low else if amt > high then high else amt

/-- Modelled from the spec: the ABS macro from common/maths.h (not in
src/). -/
def cABS (x : Int) : Int := if x > 0 then x else -x

/-- Modelled from the spec: applyDeadband from common/maths.c (not in
src/): suppress small-magnitude values near zero by subtracting the
threshold from the magnitude. -/
def applyDeadband (value deadband : Int) : Int :=
  if cABS value < deadband then 0
  else if value > 0 then value - deadband
  else if value < 0 then value + deadband
  else value

/-- Modelled from the spec: the GET_DIRECTION macro (not in src/),
mapping a reversal flag to a sign. -/
def GET_DIRECTION (isReversed : Bool) : Int := if isReversed then -1 else 1

/-- Modelled from the spec: PWM_RANGE_MIN from the platform RC headers
(not in src/), the lower bound of the valid command range. -/
def PWM_RANGE_MIN : Int := 1000

/-- Modelled from the spec: PWM_RANGE_MAX from the platform RC headers
(not in src/), the upper bound of the valid command range. -/
def PWM_RANGE_MAX : Int := 2000

/-- altitude.c line 81: 40hz update rate, 25000 microseconds. -/
def BARO_UPDATE_FREQUENCY_40HZ : Nat := 1000 * 25

/-- altitude.c line 83. -/
def DEGREES_80_IN_DECIDEGREES : Int := 800

/-- Modulus of the unsigned 32-bit microsecond timer (timeUs_t). -/
def U32_MOD : Nat := 2 ^ 32

/-- Unsigned 32-bit subtraction a - b, as in `currentTimeUs -
previousTimeUs` on uint32_t values: correct under timer wraparound. -/
def u32sub (a b : Nat) : Nat := (a % U32_MOD + (U32_MOD - b % U32_MOD)) % U32_MOD

/-- Read-only inputs of one call: sensor presence flags and readings,
RC input, PID gains, configuration.  These come from the collaborating
modules listed in the includes of altitude.c. -/
structure Env where
  sensorBaro : Bool
  sensorSonar : Bool
  sensorAcc : Bool
  baroCalibrationComplete : Bool
  baroCalculateAltitude : Int
  sonarAltReading : Int
  sonarCfAltCm : Int
  sonarMaxAltWithTiltCm : Int
  accSumZ : Int
  accSumCount : Nat
  accTimeSum : Nat
  accVelScale : ℚ
  baro_cf_alt : ℚ
  baro_cf_vel : ℚ
  pidAltP : Nat
  pidVelP : Nat
  pidVelI : Nat
  pidVelD : Nat
  attitudeRoll : Int
  attitudePitch : Int
  debugModeIsAltitude : Bool
  boxBaroActive : Bool
  boxSonarActive : Bool
  rcDataThrottle : Int
  altHoldFastChange : Bool
  altHoldDeadband : Int
  fixedWing : Bool
  fixedwingAltholdReversed : Bool
  deriving Repr, DecidableEq

/-- The mutable state of altitude.c: file-scope globals, function
statics, the two flight-mode flags it toggles, and the rcCommand slots
it writes. -/
structure AltState where
  setVelocity : Int
  velocityControl : Bool
  errorVelocityI : Int
  altHoldThrottleAdjustment : Int
  altHold : Int
  estimatedVario : Int
  estimatedAltitude : Int
  initialThrottleHold : Int
  isAltHoldChanged : Bool
  previousTimeUs : Nat
  vel : ℚ
  accAlt : ℚ
  lastBaroAlt : Int
  accZ_old : ℚ
  baroMode : Bool
  sonarMode : Bool
  rcCommandThrottle : Int
  rcCommandPitch : Int
  deriving Repr, DecidableEq

/-- The zero-initialised state of the C statics and globals at program
start. -/
def initialAltState : AltState :=
  { setVelocity := 0
    velocityControl := false
    errorVelocityI := 0
    altHoldThrottleAdjustment := 0
    altHold := 0
    estimatedVario := 0
    estimatedAltitude := 0
    initialThrottleHold := 0
    isAltHoldChanged := false
    previousTimeUs := 0
    vel := 0
    accAlt := 0
    lastBaroAlt := 0
    accZ_old := 0
    baroMode := false
    sonarMode := false
    rcCommandThrottle := 0
    rcCommandPitch := 0 }

/-- altitude.c lines 85-116, applyMultirotorAltHold. -/
def applyMultirotorAltHold (env : Env) (st : AltState) : AltState :=
  if env.altHoldFastChange then
    if cABS (env.rcDataThrottle - st.initialThrottleHold) > env.altHoldDeadband then
      { st with
        errorVelocityI := 0
        isAltHoldChanged := true
        rcCommandThrottle := st.rcCommandThrottle +
          (if env.rcDataThrottle > st.initialThrottleHold
           then -env.altHoldDeadband else env.altHoldDeadband) }
    else
      let st1 := if st.isAltHoldChanged
        then { st with altHold := st.estimatedAltitude, isAltHoldChanged := false }
        else st
      { st1 with rcCommandThrottle :=
          (constrain (st1.initialThrottleHold + st1.altHoldThrottleAdjustment)
            PWM_RANGE_MIN PWM_RANGE_MAX) }
  else
    let st1 :=
      if cABS (env.rcDataThrottle - st.initialThrottleHold) > env.altHoldDeadband then
        { st with
          setVelocity := cdiv (env.rcDataThrottle - st.initialThrottleHold) 2
          velocityControl := true
          isAltHoldChanged := true }
      else if st.isAltHoldChanged then
        { st with
          altHold := st.estimatedAltitude
          velocityControl := false
          isAltHoldChanged := false }
      else st
    { st1 with rcCommandThrottle :=
        (constrain (st1.initialThrottleHold + st1.altHoldThrottleAdjustment)
          PWM_RANGE_MIN PWM_RANGE_MAX) }

/-- altitude.c lines 118-125, applyFixedWingAltHold. -/
def applyFixedWingAltHold (env : Env) (st : AltState) : AltState :=
  { st with rcCommandPitch := st.rcCommandPitch +
      st.altHoldThrottleAdjustment * GET_DIRECTION env.fixedwingAltholdReversed }

/-- altitude.c lines 127-134, applyAltHold. -/
def applyAltHold (env : Env) (st : AltState) : AltState :=
  if env.fixedWing then applyFixedWingAltHold env st
  else applyMultirotorAltHold env st

/-- altitude.c lines 136-151, updateAltHoldState: the barometer-hold
engagement state machine. -/
def updateAltHoldState (env : Env) (st : AltState) : AltState :=
  if !env.boxBaroActive then { st with baroMode := false }
  else if !st.baroMode then
    { st with
      baroMode := true
      altHold := st.estimatedAltitude
      initialThrottleHold := env.rcDataThrottle
      errorVelocityI := 0
      altHoldThrottleAdjustment := 0 }
  else st

/-- altitude.c lines 153-168, updateSonarAltHoldState: the ranging-hold
engagement state machine. -/
def updateSonarAltHoldState (env : Env) (st : AltState) : AltState :=
  if !env.boxSonarActive then { st with sonarMode := false }
  else if !st.sonarMode then
    { st with
      sonarMode := true
      altHold := st.estimatedAltitude
      initialThrottleHold := env.rcDataThrottle
      errorVelocityI := 0
      altHoldThrottleAdjustment := 0 }
  else st

/-- altitude.c lines 170-173, isThrustFacingDownwards. -/
def isThrustFacingDownwards (roll pitch : Int) : Bool :=
  cABS roll < DEGREES_80_IN_DECIDEGREES && cABS pitch < DEGREES_80_IN_DECIDEGREES

/-- altitude.c lines 187-193: the target-velocity computation of the
outer position P stage (local setVel of
calculateAltHoldThrottleAdjustment). -/
def calcSetVel (env : Env) (st : AltState) : Int :=
  if !st.velocityControl then
    constrain
      (cdiv ((env.pidAltP : Int) *
        applyDeadband (constrain (st.altHold - st.estimatedAltitude) (-500) 500) 10) 128)
      (-300) 300
  else st.setVelocity

/-- altitude.c lines 175-209, calculateAltHoldThrottleAdjustment;
returns the result together with the updated state (the function
mutates errorVelocityI). -/
def calculateAltHoldThrottleAdjustment (env : Env) (st : AltState)
    (vel_tmp : Int) (accZ_tmp accZ_old : ℚ) : Int × AltState :=
  if !isThrustFacingDownwards env.attitudeRoll env.attitudePitch then (0, st)
  else
    let setVel := calcSetVel env st
    let error := setVel - vel_tmp
    let resultP := constrain (cdiv ((env.pidVelP : Int) * error) 32) (-300) 300
    let evI := constrain (st.errorVelocityI + (env.pidVelI : Int) * error)
      (-(8192 * 200)) (8192 * 200)
    let resultD := constrain
      (ratTrunc ((env.pidVelD : ℚ) * (accZ_tmp + accZ_old) / 512)) (-150) 150
    (resultP + cdiv evI 8192 - resultD, { st with errorVelocityI := evI })

/-- altitude.c lines 223-234: the provisional barometric altitude of
the tick (local baroAlt, 0 unless the barometer is present and
calibrated). -/
def baroAltOf (env : Env) : Int :=
  if env.sensorBaro && env.baroCalibrationComplete
  then env.baroCalculateAltitude else 0

/-- altitude.c lines 224-234: the barometer block.  Uncalibrated:
run a calibration cycle (external effect) and zero vel and accAlt;
calibrated: publish the barometric altitude. -/
def baroBlock (env : Env) (st : AltState) : AltState :=
  if env.sensorBaro then
    if !env.baroCalibrationComplete then { st with vel := 0, accAlt := 0 }
    else { st with estimatedAltitude := baroAltOf env }
  else st

/-- altitude.c line 240: the guard of the ranging fusion. -/
def sonarInBand (env : Env) : Prop :=
  env.sonarAltReading > 0 ∧ env.sonarCfAltCm ≤ env.sonarAltReading ∧
    env.sonarAltReading ≤ env.sonarMaxAltWithTiltCm

instance (env : Env) : Decidable (sonarInBand env) := by
  unfold sonarInBand; infer_instance

/-- altitude.c line 242: the complementary-filter transition factor of
the ranging fusion. -/
def sonarTransition (env : Env) : ℚ :=
  ((env.sonarMaxAltWithTiltCm - env.sonarAltReading : Int) : ℚ) /
    ((env.sonarMaxAltWithTiltCm - env.sonarCfAltCm : Int) : ℚ)

/-- altitude.c lines 237-247: the ranging-sensor block. -/
def sonarBlock (env : Env) (baroAlt : Int) (st : AltState) : AltState :=
  if env.sensorSonar then
    if sonarInBand env then
      { st with estimatedAltitude :=
          (ratTrunc ((env.sonarAltReading : ℚ) * sonarTransition env +
            (baroAlt : ℚ) * (1 - sonarTransition env))) }
    else st
  else st

/-- altitude.c lines 249-257: mean vertical acceleration of the sample
window (local accZ_tmp), 0 when the accelerometer is absent or the
sample count is zero. -/
def accZ_tmpOf (env : Env) : ℚ :=
  if env.sensorAcc && env.accSumCount != 0
  then (env.accSumZ : ℚ) / (env.accSumCount : ℚ) else 0

/-- altitude.c lines 250-266: the accelerometer integration block. -/
def accBlock (env : Env) (baroAlt : Int) (st : AltState) : AltState :=
  if env.sensorAcc then
    let dt : ℚ := (env.accTimeSum : ℚ) * (1 / 1000000)
    let vel_acc : ℚ := accZ_tmpOf env * env.accVelScale * (env.accTimeSum : ℚ)
    let accAlt1 : ℚ := st.accAlt + vel_acc * (1 / 2) * dt + st.vel * dt
    let accAlt2 : ℚ := accAlt1 * env.baro_cf_alt +
      (baroAlt : ℚ) * (1 - env.baro_cf_alt)
    { st with
      accAlt := accAlt2
      vel := st.vel + vel_acc
      estimatedAltitude := ratTrunc accAlt2 }
  else st

/-- altitude.c lines 274-287: barometric vertical velocity (discrete
derivative, clamped and deadbanded) and the lastBaroAlt update. -/
def baroVelBlock (env : Env) (baroAlt : Int) (dTime : Nat) (st : AltState) :
    AltState × Int :=
  if env.sensorBaro then
    let baroVel0 : Int := ratTrunc
      (((baroAlt - st.lastBaroAlt : Int) : ℚ) * 1000000 / (dTime : ℚ))
    ({ st with lastBaroAlt := baroAlt },
      applyDeadband (constrain baroVel0 (-1500) 1500) 10)
  else (st, 0)

/-- altitude.c lines 274-301: the tail of an accepted tick past the
calibration early return: barometric velocity, the velocity
complementary filter (line 292), the vario deadband (line 296) and the
controller call (line 299) with the accZ_old rotation (line 300). -/
def estFinal (env : Env) (dTime : Nat) (baroAlt : Int) (st4 : AltState) :
    AltState :=
  let p := baroVelBlock env baroAlt dTime st4
  let st5 := p.1
  let vel2 : ℚ := st5.vel * env.baro_cf_vel + (p.2 : ℚ) * (1 - env.baro_cf_vel)
  let vel_tmp := lrintf vel2
  let st6 := { st5 with vel := vel2, estimatedVario := applyDeadband vel_tmp 5 }
  let q := calculateAltHoldThrottleAdjustment env st6 vel_tmp
    (accZ_tmpOf env) st6.accZ_old
  { q.2 with altHoldThrottleAdjustment := q.1, accZ_old := accZ_tmpOf env }

/-- altitude.c lines 218-301: the body of an accepted tick: timestamp
update, the three sensor blocks, the early return when the barometer is
present but uncalibrated (lines 276-279), else the tail. -/
def estAccepted (env : Env) (st : AltState) (currentTimeUs dTime : Nat) :
    AltState :=
  let baroAlt := baroAltOf env
  let st4 := accBlock env baroAlt (sonarBlock env baroAlt
    (baroBlock env { st with previousTimeUs := currentTimeUs % U32_MOD }))
  if env.sensorBaro && !env.baroCalibrationComplete then st4
  else estFinal env dTime baroAlt st4

/-- altitude.c lines 211-301, calculateEstimatedAltitude: the rate
limiter (lines 214-218) followed by the accepted-tick body. -/
def calculateEstimatedAltitude (env : Env) (st : AltState)
    (currentTimeUs : Nat) : AltState :=
  let dTime := u32sub currentTimeUs st.previousTimeUs
  if dTime < BARO_UPDATE_FREQUENCY_40HZ then st
  else estAccepted env st currentTimeUs dTime

/-- True exactly when the call calculateEstimatedAltitude(currentTimeUs)
invokes performBaroCalibrationCycle (altitude.c lines 215-227): the tick
is accepted and the barometer is present but uncalibrated. -/
def didBaroCalibrationCycle (env : Env) (st : AltState)
    (currentTimeUs : Nat) : Bool :=
  !(u32sub currentTimeUs st.previousTimeUs < BARO_UPDATE_FREQUENCY_40HZ) &&
    env.sensorBaro && !env.baroCalibrationComplete

/-- The divisors of every division the call
calculateEstimatedAltitude(currentTimeUs) performs at runtime, in
source order: the ranging transition factor (line 242), the guarded
mean-acceleration division (line 256), the division inside the
DEBUG_SET tap (line 268, evaluated only when the debug mode selects
DEBUG_ALTITUDE), the barometric-velocity division by dTime (line 282),
and the constant divisors of calculateAltHoldThrottleAdjustment
(lines 190, 198, 203, 206), reached on the paths the source reaches
them. -/
def estDivisors (env : Env) (st : AltState) (currentTimeUs : Nat) : List Int :=
  let dTime := u32sub currentTimeUs st.previousTimeUs
  if dTime < BARO_UPDATE_FREQUENCY_40HZ then []
  else
    (if env.sensorSonar ∧ sonarInBand env
     then [(env.sonarMaxAltWithTiltCm - env.sonarCfAltCm : Int)] else []) ++
    (if env.sensorAcc ∧ env.accSumCount ≠ 0 then [(env.accSumCount : Int)] else []) ++
    (if env.debugModeIsAltitude then [(env.accSumCount : Int)] else []) ++
    (if env.sensorBaro ∧ env.baroCalibrationComplete = false then []
     else
       (if env.sensorBaro then [(dTime : Int)] else []) ++
       (if isThrustFacingDownwards env.attitudeRoll env.attitudePitch then
          (if !st.velocityControl then [128] else []) ++ [32, 8192, 512]
        else []))

/-! Helper lemmas about the arithmetic primitives. -/

theorem cABS_eq_abs (x : Int) : cABS x = |x| := by
  unfold cABS
  split
  · exact (abs_of_pos (by omega)).symm
  · exact (abs_of_nonpos (by omega)).symm

theorem le_constrain (x low high : Int) (h : low ≤ high) :
    low ≤ constrain x low high := by
  unfold constrain
  split
  · exact le_refl low
  · split
    · exact h
    · omega

theorem constrain_le (x low high : Int) (h : low ≤ high) :
    constrain x low high ≤ high := by
  unfold constrain
  split
  · exact h
  · split
    · exact le_refl high
    · omega

theorem abs_constrain_le (x B : Int) (hB : 0 ≤ B) : |constrain x (-B) B| ≤ B :=
  abs_le.mpr ⟨le_constrain x (-B) B (by omega), constrain_le x (-B) B (by omega)⟩

theorem cdiv_nonneg_of_nonneg (a b : Int) (ha : 0 ≤ a) (hb : 0 ≤ b) :
    0 ≤ cdiv a b := by
  unfold cdiv
  rw [if_pos ha]
  exact Int.ediv_nonneg ha hb

theorem abs_cdiv_le (a b n : Int) (hb : 0 < b) (h : |a| ≤ n * b) :
    |cdiv a b| ≤ n := by
  have hn : 0 ≤ n := by
    have h0 : 0 ≤ n * b := le_trans (abs_nonneg a) h
    exact nonneg_of_mul_nonneg_right (mul_comm n b ▸ h0) hb
  unfold cdiv
  split
  · rename_i ha
    have h1 : a ≤ n * b := le_trans (le_abs_self a) h
    have h2 : a / b ≤ n * b / b := Int.ediv_le_ediv hb h1
    rw [Int.mul_ediv_cancel n hb.ne'] at h2
    have h3 : 0 ≤ a / b := Int.ediv_nonneg ha hb.le
    rw [abs_of_nonneg h3]
    exact h2
  · rename_i ha
    have ha' : 0 ≤ -a := by omega
    have h1 : -a ≤ n * b := le_trans (neg_le_abs a) h
    have h2 : -a / b ≤ n * b / b := Int.ediv_le_ediv hb h1
    rw [Int.mul_ediv_cancel n hb.ne'] at h2
    have h3 : 0 ≤ -a / b := Int.ediv_nonneg ha' hb.le
    rw [abs_neg, abs_of_nonneg h3]
    exact h2

theorem ratTrunc_intCast (n : Int) : ratTrunc (n : ℚ) = n := by
  unfold ratTrunc cdiv
  rw [Rat.num_intCast, Rat.den_intCast]
  split <;> simp

/-! Helper lemmas characterising the estimator blocks. -/

theorem baroBlock_absent (env : Env) (st : AltState) (h : env.sensorBaro = false) :
    baroBlock env st = st := by
  unfold baroBlock
  rw [h]
  simp

theorem baroBlock_uncal (env : Env) (st : AltState) (h1 : env.sensorBaro = true)
    (h2 : env.baroCalibrationComplete = false) :
    baroBlock env st = { st with vel := 0, accAlt := 0 } := by
  unfold baroBlock
  rw [h1, h2]
  simp

theorem baroBlock_cal (env : Env) (st : AltState) (h1 : env.sensorBaro = true)
    (h2 : env.baroCalibrationComplete = true) :
    baroBlock env st = { st with estimatedAltitude := baroAltOf env } := by
  unfold baroBlock
  rw [h1, h2]
  simp

theorem sonarBlock_absent (env : Env) (b : Int) (st : AltState)
    (h : env.sensorSonar = false) : sonarBlock env b st = st := by
  unfold sonarBlock
  rw [h]
  simp

theorem sonarBlock_out (env : Env) (b : Int) (st : AltState)
    (h : ¬ sonarInBand env) : sonarBlock env b st = st := by
  unfold sonarBlock
  rw [if_neg h]
  split <;> rfl

theorem sonarBlock_in (env : Env) (b : Int) (st : AltState)
    (h1 : env.sensorSonar = true) (h2 : sonarInBand env) :
    sonarBlock env b st = { st with estimatedAltitude :=
      (ratTrunc ((env.sonarAltReading : ℚ) * sonarTransition env +
        (b : ℚ) * (1 - sonarTransition env))) } := by
  unfold sonarBlock
  rw [h1, if_pos h2]
  simp

theorem accBlock_absent (env : Env) (b : Int) (st : AltState)
    (h : env.sensorAcc = false) : accBlock env b st = st := by
  unfold accBlock
  rw [h]
  simp

theorem baroBlock_errorVelocityI (env : Env) (st : AltState) :
    (baroBlock env st).errorVelocityI = st.errorVelocityI := by
  unfold baroBlock
  split
  · split <;> rfl
  · rfl

theorem sonarBlock_errorVelocityI (env : Env) (b : Int) (st : AltState) :
    (sonarBlock env b st).errorVelocityI = st.errorVelocityI := by
  unfold sonarBlock
  split
  · split <;> rfl
  · rfl

theorem accBlock_errorVelocityI (env : Env) (b : Int) (st : AltState) :
    (accBlock env b st).errorVelocityI = st.errorVelocityI := by
  unfold accBlock
  split <;> rfl

theorem baroVelBlock_errorVelocityI (env : Env) (b : Int) (d : Nat) (st : AltState) :
    ((baroVelBlock env b d st).1).errorVelocityI = st.errorVelocityI := by
  unfold baroVelBlock
  split <;> rfl

theorem adj_errorVelocityI_bound (env : Env) (st : AltState) (vel_tmp : Int)
    (aZ aOld : ℚ) (h : |st.errorVelocityI| ≤ 8192 * 200) :
    |(calculateAltHoldThrottleAdjustment env st vel_tmp aZ aOld).2.errorVelocityI| ≤
      8192 * 200 := by
  unfold calculateAltHoldThrottleAdjustment
  split
  · exact h
  · exact abs_constrain_le _ _ (by norm_num)

theorem adj_snd_estimatedAltitude (env : Env) (st : AltState) (vel_tmp : Int)
    (aZ aOld : ℚ) :
    (calculateAltHoldThrottleAdjustment env st vel_tmp aZ aOld).2.estimatedAltitude =
      st.estimatedAltitude := by
  unfold calculateAltHoldThrottleAdjustment
  split <;> rfl

theorem baroVelBlock_estimatedAltitude (env : Env) (b : Int) (d : Nat) (st : AltState) :
    ((baroVelBlock env b d st).1).estimatedAltitude = st.estimatedAltitude := by
  unfold baroVelBlock
  split <;> rfl

/-- Concrete environment used by the witnesses: a rotary-wing craft,
level attitude, barometer present and calibrated, ranging sensor
present with band [100, 300] and reading 100, accelerometer absent,
both hold switches active. -/
def envW : Env :=
  { sensorBaro := true
    sensorSonar := true
    sensorAcc := false
    baroCalibrationComplete := true
    baroCalculateAltitude := 250
    sonarAltReading := 100
    sonarCfAltCm := 100
    sonarMaxAltWithTiltCm := 300
    accSumZ := 0
    accSumCount := 0
    accTimeSum := 10000
    accVelScale := 1 / 100
    baro_cf_alt := 1 / 2
    baro_cf_vel := 1 / 2
    pidAltP := 50
    pidVelP := 100
    pidVelI := 40
    pidVelD := 30
    attitudeRoll := 0
    attitudePitch := 0
    debugModeIsAltitude := false
    boxBaroActive := true
    boxSonarActive := true
    rcDataThrottle := 1500
    altHoldFastChange := false
    altHoldDeadband := 40
    fixedWing := false
    fixedwingAltholdReversed := false }

/-- State just before a wrapped-around timer tick: the previous accepted
update happened 1000 microseconds before the uint32 microsecond counter
wrapped. -/
def stWrap : AltState := { initialAltState with previousTimeUs := 2 ^ 32 - 1000 }

/-- C4: a call to calculateEstimatedAltitude whose unsigned 32-bit
elapsed time since the last accepted update is below 25000 microseconds
changes nothing at all: the returned state (estimatedAltitude,
estimatedVario, altHoldThrottleAdjustment, vel, accAlt, lastBaroAlt,
previousTimeUs and every other field) is the input state, timer
wraparound included. -/
theorem claim_C4_rate_limit_no_op (env : Env) (st : AltState) (t : Nat)
    (h : u32sub t st.previousTimeUs < BARO_UPDATE_FREQUENCY_40HZ) :
    calculateEstimatedAltitude env st t = st := by
  unfold calculateEstimatedAltitude
  simp [h]

/-- Witness for C4, across a timer wraparound: 1000 microseconds before
the wrap plus 5000 microseconds after it is an elapsed time of 6000
microseconds, so the call is a no-op. -/
theorem claim_C4_witness :
    u32sub 5000 stWrap.previousTimeUs < BARO_UPDATE_FREQUENCY_40HZ ∧
      calculateEstimatedAltitude envW stWrap 5000 = stWrap :=
  ⟨by decide, claim_C4_rate_limit_no_op envW stWrap 5000 (by decide)⟩

/-- C10: isThrustFacingDownwards holds exactly when both attitude
magnitudes are strictly below 800 decidegrees, and whenever it fails,
calculateAltHoldThrottleAdjustment returns 0 and leaves the state (in
particular errorVelocityI) untouched. -/
theorem claim_C10_thrust_guard (env : Env) (st : AltState) (vel_tmp : Int)
    (aZ aOld : ℚ) :
    (isThrustFacingDownwards env.attitudeRoll env.attitudePitch = true ↔
      |env.attitudeRoll| < 800 ∧ |env.attitudePitch| < 800) ∧
    (isThrustFacingDownwards env.attitudeRoll env.attitudePitch = false →
      calculateAltHoldThrottleAdjustment env st vel_tmp aZ aOld = (0, st)) := by
  constructor
  · unfold isThrustFacingDownwards
    rw [cABS_eq_abs, cABS_eq_abs]
    simp [DEGREES_80_IN_DECIDEGREES]
  · intro h
    unfold calculateAltHoldThrottleAdjustment
    rw [h]
    simp

/-- Witness for C10 at pitch exactly 800 decidegrees: the guard is
false and the controller returns 0 leaving the state unchanged. -/
theorem claim_C10_witness :
    calculateAltHoldThrottleAdjustment
      { envW with attitudePitch := 800 } initialAltState 0 0 0 =
      (0, initialAltState) :=
  (claim_C10_thrust_guard { envW with attitudePitch := 800 }
    initialAltState 0 0 0).2 (by decide)

/-- C5: for both hold state machines, the DISENGAGED to ENGAGED
transition latches AltHold from the current estimate and
initialThrottleHold from the throttle input and zeroes errorVelocityI
and altHoldThrottleAdjustment, while any call in the ENGAGED state with
the request still active changes nothing, so the latch happens exactly
once per transition. -/
theorem claim_C5_engagement_latches_once (env : Env) (st : AltState) :
    (env.boxBaroActive = true → st.baroMode = false →
      updateAltHoldState env st = { st with
        baroMode := true
        altHold := st.estimatedAltitude
        initialThrottleHold := env.rcDataThrottle
        errorVelocityI := 0
        altHoldThrottleAdjustment := 0 }) ∧
    (env.boxBaroActive = true → st.baroMode = true →
      updateAltHoldState env st = st) ∧
    (env.boxSonarActive = true → st.sonarMode = false →
      updateSonarAltHoldState env st = { st with
        sonarMode := true
        altHold := st.estimatedAltitude
        initialThrottleHold := env.rcDataThrottle
        errorVelocityI := 0
        altHoldThrottleAdjustment := 0 }) ∧
    (env.boxSonarActive = true → st.sonarMode = true →
      updateSonarAltHoldState env st = st) := by
  refine ⟨fun ha hm => ?_, fun ha hm => ?_, fun ha hm => ?_, fun ha hm => ?_⟩ <;>
    · first
        | (unfold updateAltHoldState; rw [ha, hm]; simp)
        | (unfold updateSonarAltHoldState; rw [ha, hm]; simp)

/-- Witness for C5: engaging from the initial state latches, and the
immediately following call in the engaged state is the identity. -/
theorem claim_C5_witness :
    updateAltHoldState envW initialAltState = { initialAltState with
      baroMode := true
      altHold := initialAltState.estimatedAltitude
      initialThrottleHold := envW.rcDataThrottle
      errorVelocityI := 0
      altHoldThrottleAdjustment := 0 } ∧
    updateAltHoldState envW { initialAltState with baroMode := true } =
      { initialAltState with baroMode := true } :=
  ⟨(claim_C5_engagement_latches_once envW initialAltState).1 rfl rfl,
    (claim_C5_engagement_latches_once envW
      { initialAltState with baroMode := true }).2.1 rfl rfl⟩

theorem updateAltHoldState_errorVelocityI_bound (env : Env) (st : AltState)
    (h : |st.errorVelocityI| ≤ 8192 * 200) :
    |(updateAltHoldState env st).errorVelocityI| ≤ 8192 * 200 := by
  unfold updateAltHoldState
  split
  · exact h
  · split
    · norm_num
    · exact h

theorem updateSonarAltHoldState_errorVelocityI_bound (env : Env) (st : AltState)
    (h : |st.errorVelocityI| ≤ 8192 * 200) :
    |(updateSonarAltHoldState env st).errorVelocityI| ≤ 8192 * 200 := by
  unfold updateSonarAltHoldState
  split
  · exact h
  · split
    · norm_num
    · exact h

theorem applyAltHold_errorVelocityI_bound (env : Env) (st : AltState)
    (h : |st.errorVelocityI| ≤ 8192 * 200) :
    |(applyAltHold env st).errorVelocityI| ≤ 8192 * 200 := by
  unfold applyAltHold applyFixedWingAltHold applyMultirotorAltHold
  split
  · exact h
  · split
    · split
      · norm_num
      · split <;> exact h
    · split
      · exact h
      · split <;> exact h

theorem calcEst_below_quantum (env : Env) (st : AltState) (t : Nat)
    (h : u32sub t st.previousTimeUs < BARO_UPDATE_FREQUENCY_40HZ) :
    calculateEstimatedAltitude env st t = st := by
  unfold calculateEstimatedAltitude
  simp [h]

theorem calcEst_accepted (env : Env) (st : AltState) (t : Nat)
    (h : ¬ u32sub t st.previousTimeUs < BARO_UPDATE_FREQUENCY_40HZ) :
    calculateEstimatedAltitude env st t =
      estAccepted env st t (u32sub t st.previousTimeUs) := by
  unfold calculateEstimatedAltitude
  simp [h]

theorem estAccepted_uncal (env : Env) (st : AltState) (t d : Nat)
    (hb : env.sensorBaro = true) (hc : env.baroCalibrationComplete = false) :
    estAccepted env st t d = accBlock env (baroAltOf env)
      (sonarBlock env (baroAltOf env)
        (baroBlock env { st with previousTimeUs := t % U32_MOD })) := by
  unfold estAccepted
  simp [hb, hc]

theorem estAccepted_cal (env : Env) (st : AltState) (t d : Nat)
    (h : env.sensorBaro = false ∨ env.baroCalibrationComplete = true) :
    estAccepted env st t d = estFinal env d (baroAltOf env)
      (accBlock env (baroAltOf env) (sonarBlock env (baroAltOf env)
        (baroBlock env { st with previousTimeUs := t % U32_MOD }))) := by
  unfold estAccepted
  rcases h with h | h <;> simp [h]

theorem estFinal_errorVelocityI_bound (env : Env) (d : Nat) (b : Int)
    (st4 : AltState) (h : |st4.errorVelocityI| ≤ 8192 * 200) :
    |(estFinal env d b st4).errorVelocityI| ≤ 8192 * 200 := by
  unfold estFinal
  refine adj_errorVelocityI_bound _ _ _ _ _ ?_
  show |((baroVelBlock env b d st4).1).errorVelocityI| ≤ 8192 * 200
  rw [baroVelBlock_errorVelocityI]
  exact h

theorem calcEst_errorVelocityI_bound (env : Env) (st : AltState) (t : Nat)
    (h : |st.errorVelocityI| ≤ 8192 * 200) :
    |(calculateEstimatedAltitude env st t).errorVelocityI| ≤ 8192 * 200 := by
  have h4 : |(accBlock env (baroAltOf env) (sonarBlock env (baroAltOf env)
      (baroBlock env { st with previousTimeUs := t % U32_MOD }))).errorVelocityI| ≤
      8192 * 200 := by
    rw [accBlock_errorVelocityI, sonarBlock_errorVelocityI, baroBlock_errorVelocityI]
    exact h
  by_cases hd : u32sub t st.previousTimeUs < BARO_UPDATE_FREQUENCY_40HZ
  · rw [calcEst_below_quantum env st t hd]
    exact h
  · rw [calcEst_accepted env st t hd]
    by_cases hb : env.sensorBaro = true ∧ env.baroCalibrationComplete = false
    · rw [estAccepted_uncal env st t _ hb.1 hb.2]
      exact h4
    · have hb' : env.sensorBaro = false ∨ env.baroCalibrationComplete = true := by
        rcases Bool.eq_false_or_eq_true env.sensorBaro with h1 | h1 <;>
          rcases Bool.eq_false_or_eq_true env.baroCalibrationComplete with h2 | h2 <;>
          first
            | exact Or.inl h1
            | exact Or.inr h2
            | exact absurd ⟨h1, h2⟩ hb
      rw [estAccepted_cal env st t _ hb']
      exact estFinal_errorVelocityI_bound env _ _ _ h4

/-- C6: errorVelocityI starts at 0 and every operation of the core
keeps it inside the fixed symmetric range of magnitude 8192 times 200 =
1638400: the controller integral update, both hold-engagement state
machines, the output stage with its fast-mode zeroing, and the
estimator tick. -/
theorem claim_C6_integrator_invariant (env : Env) (st : AltState) (t : Nat)
    (vel_tmp : Int) (aZ aOld : ℚ)
    (h : |st.errorVelocityI| ≤ 8192 * 200) :
    |initialAltState.errorVelocityI| ≤ 8192 * 200 ∧
    |(calculateAltHoldThrottleAdjustment env st vel_tmp aZ aOld).2.errorVelocityI| ≤
      8192 * 200 ∧
    |(updateAltHoldState env st).errorVelocityI| ≤ 8192 * 200 ∧
    |(updateSonarAltHoldState env st).errorVelocityI| ≤ 8192 * 200 ∧
    |(applyAltHold env st).errorVelocityI| ≤ 8192 * 200 ∧
    |(calculateEstimatedAltitude env st t).errorVelocityI| ≤ 8192 * 200 :=
  ⟨by norm_num [initialAltState],
    adj_errorVelocityI_bound env st vel_tmp aZ aOld h,
    updateAltHoldState_errorVelocityI_bound env st h,
    updateSonarAltHoldState_errorVelocityI_bound env st h,
    applyAltHold_errorVelocityI_bound env st h,
    calcEst_errorVelocityI_bound env st t h⟩

/-- Witness for C6 at the initial state and an accepted first tick. -/
theorem claim_C6_witness :
    |(calculateEstimatedAltitude envW initialAltState 25000).errorVelocityI| ≤
      8192 * 200 :=
  (claim_C6_integrator_invariant envW initialAltState 25000 0 0 0
    (by norm_num [initialAltState])).2.2.2.2.2

/-- C7: with the integrator invariant on entry, the value returned by
calculateAltHoldThrottleAdjustment, although not clamped as a whole,
never exceeds in magnitude the sum 300 + 200 + 150 = 650 of the three
stage clamp bounds. -/
theorem claim_C7_output_bounded (env : Env) (st : AltState) (vel_tmp : Int)
    (aZ aOld : ℚ) (h : |st.errorVelocityI| ≤ 8192 * 200) :
    |(calculateAltHoldThrottleAdjustment env st vel_tmp aZ aOld).1| ≤ 650 := by
  unfold calculateAltHoldThrottleAdjustment
  split
  · norm_num
  · have hP : |constrain (cdiv ((env.pidVelP : Int) * (calcSetVel env st - vel_tmp)) 32)
        (-300) 300| ≤ 300 := abs_constrain_le _ _ (by norm_num)
    have hIcl : |constrain (st.errorVelocityI +
        (env.pidVelI : Int) * (calcSetVel env st - vel_tmp))
        (-(8192 * 200)) (8192 * 200)| ≤ 8192 * 200 :=
      abs_constrain_le _ _ (by norm_num)
    have hI : |cdiv (constrain (st.errorVelocityI +
        (env.pidVelI : Int) * (calcSetVel env st - vel_tmp))
        (-(8192 * 200)) (8192 * 200)) 8192| ≤ 200 :=
      abs_cdiv_le _ _ 200 (by norm_num) (by linarith [hIcl])
    have hD : |constrain (ratTrunc ((env.pidVelD : ℚ) * (aZ + aOld) / 512))
        (-150) 150| ≤ 150 := abs_constrain_le _ _ (by norm_num)
    rw [abs_le] at hP hI hD
    dsimp only
    rw [abs_le]
    constructor <;> linarith [hP.1, hP.2, hI.1, hI.2, hD.1, hD.2]

/-- Witness for C7 at the initial state with level attitude. -/
theorem claim_C7_witness :
    |(calculateAltHoldThrottleAdjustment envW initialAltState 0 0 0).1| ≤ 650 :=
  claim_C7_output_bounded envW initialAltState 0 0 0
    (by norm_num [initialAltState])

/-- Fast-change rotary-wing input whose stick deviation exceeds the
deadband while the throttle command sits at the top of the range. -/
def envC2 : Env := { envW with altHoldFastChange := true, rcDataThrottle := 1000 }

/-- State for the fast-change counterexample: hold engaged at throttle
1500, current throttle command already at 2000. -/
def stC2 : AltState :=
  { initialAltState with initialThrottleHold := 1500, rcCommandThrottle := 2000 }

/-- Fixed-wing configuration for the pitch part of the counterexample. -/
def envC2fw : Env := { envW with fixedWing := true }

/-- State whose pitch command is already outside the range. -/
def stC2fw : AltState := { initialAltState with rcCommandPitch := 3000 }

/-- Counterexample to C2: in the fast-change stick-deviation branch the
throttle command is biased by the deadband without clamping (here 2000 +
40 = 2040), and the fixed-wing pitch adjustment is applied without any
clamping at all, so neither resulting command need lie in
[PWM_RANGE_MIN, PWM_RANGE_MAX]. -/
theorem claim_C2_counterexample :
    envC2.fixedWing = false ∧ envC2.altHoldFastChange = true ∧
    cABS (envC2.rcDataThrottle - stC2.initialThrottleHold) > envC2.altHoldDeadband ∧
    (applyAltHold envC2 stC2).rcCommandThrottle = 2040 ∧
    ¬(PWM_RANGE_MIN ≤ (applyAltHold envC2 stC2).rcCommandThrottle ∧
      (applyAltHold envC2 stC2).rcCommandThrottle ≤ PWM_RANGE_MAX) ∧
    envC2fw.fixedWing = true ∧
    ¬(PWM_RANGE_MIN ≤ (applyAltHold envC2fw stC2fw).rcCommandPitch ∧
      (applyAltHold envC2fw stC2fw).rcCommandPitch ≤ PWM_RANGE_MAX) := by
  decide

/-- C2 as amended: for a rotary-wing craft, in the slow-change mode
always, and in the fast-change mode whenever the stick deviation is
within the deadband, the resulting throttle command is clamped into
[PWM_RANGE_MIN, PWM_RANGE_MAX]; the fast-change deviation branch and
the fixed-wing pitch path apply their adjustment unclamped. -/
theorem claim_C2_amended_clamped (env : Env) (st : AltState)
    (hfw : env.fixedWing = false)
    (h : env.altHoldFastChange = false ∨
      ¬(cABS (env.rcDataThrottle - st.initialThrottleHold) > env.altHoldDeadband)) :
    PWM_RANGE_MIN ≤ (applyAltHold env st).rcCommandThrottle ∧
      (applyAltHold env st).rcCommandThrottle ≤ PWM_RANGE_MAX := by
  have hMM : PWM_RANGE_MIN ≤ PWM_RANGE_MAX := by
    norm_num [PWM_RANGE_MIN, PWM_RANGE_MAX]
  by_cases hfc : env.altHoldFastChange = true
  · have hdev : ¬(cABS (env.rcDataThrottle - st.initialThrottleHold) >
        env.altHoldDeadband) := by
      rcases h with h0 | h0
      · rw [h0] at hfc
        exact absurd hfc (by simp)
      · exact h0
    simp only [applyAltHold, applyMultirotorAltHold, hfw, hfc, if_neg hdev]
    simp only [Bool.false_eq_true, if_false, if_true]
    exact ⟨le_constrain _ _ _ hMM, constrain_le _ _ _ hMM⟩
  · have hfc' : env.altHoldFastChange = false := by
      rcases Bool.eq_false_or_eq_true env.altHoldFastChange with h1 | h1 <;>
        first
          | exact h1
          | exact absurd h1 hfc
    simp only [applyAltHold, applyMultirotorAltHold, hfw, hfc']
    simp only [Bool.false_eq_true, if_false]
    exact ⟨le_constrain _ _ _ hMM, constrain_le _ _ _ hMM⟩

/-- Witness for C2 as amended: slow-change mode with hold throttle 1500
and zero adjustment keeps the command inside the range. -/
theorem claim_C2_witness :
    PWM_RANGE_MIN ≤ (applyAltHold envW stC2).rcCommandThrottle ∧
      (applyAltHold envW stC2).rcCommandThrottle ≤ PWM_RANGE_MAX :=
  claim_C2_amended_clamped envW stC2 rfl (Or.inl rfl)

/-- The outer-stage target velocity exactly as the spec words it:
targetVelocity = clamp(P_alt x deadband(clamp(targetAltitude -
currentAltitude, -500, +500), 10) / 128, -300, +300). -/
def specTargetVelocity (p altHold est : Int) : Int :=
  constrain (cdiv (p * applyDeadband (constrain (altHold - est) (-500) 500) 10) 128)
    (-300) 300

/-- C8: when velocity-control mode is inactive the code computes the
target velocity by the spec formula, and in the scenario targetAltitude
= 1000, currentAltitude = 400 the altitude error clamps to 500 (not
600), the deadbanded error is 490, and the target velocity is
clamp(P_alt x 490 / 128, -300, +300). -/
theorem claim_C8_outer_stage (env : Env) (st : AltState)
    (hvc : st.velocityControl = false) :
    calcSetVel env st =
      specTargetVelocity (env.pidAltP : Int) st.altHold st.estimatedAltitude ∧
    (st.altHold = 1000 → st.estimatedAltitude = 400 →
      constrain (st.altHold - st.estimatedAltitude) (-500) 500 = 500 ∧
      applyDeadband (constrain (st.altHold - st.estimatedAltitude) (-500) 500) 10 =
        490 ∧
      calcSetVel env st =
        constrain (cdiv ((env.pidAltP : Int) * 490) 128) (-300) 300) := by
  constructor
  · unfold calcSetVel specTargetVelocity
    rw [hvc]
    simp
  · intro h1 h2
    refine ⟨by rw [h1, h2]; decide, by rw [h1, h2]; decide, ?_⟩
    unfold calcSetVel
    rw [hvc, h1, h2]
    norm_num
    rfl

/-- Witness for C8 in the documented scenario with P_alt = 50. -/
theorem claim_C8_witness :
    calcSetVel envW { initialAltState with altHold := 1000, estimatedAltitude := 400 } =
      constrain (cdiv ((envW.pidAltP : Int) * 490) 128) (-300) 300 :=
  ((claim_C8_outer_stage envW
    { initialAltState with altHold := 1000, estimatedAltitude := 400 }
    rfl).2 rfl rfl).2.2

theorem baroBlock_estimatedVario (env : Env) (st : AltState) :
    (baroBlock env st).estimatedVario = st.estimatedVario := by
  unfold baroBlock
  split
  · split <;> rfl
  · rfl

theorem sonarBlock_estimatedVario (env : Env) (b : Int) (st : AltState) :
    (sonarBlock env b st).estimatedVario = st.estimatedVario := by
  unfold sonarBlock
  split
  · split <;> rfl
  · rfl

theorem accBlock_estimatedVario (env : Env) (b : Int) (st : AltState) :
    (accBlock env b st).estimatedVario = st.estimatedVario := by
  unfold accBlock
  split <;> rfl

theorem baroBlock_altHoldThrottleAdjustment (env : Env) (st : AltState) :
    (baroBlock env st).altHoldThrottleAdjustment = st.altHoldThrottleAdjustment := by
  unfold baroBlock
  split
  · split <;> rfl
  · rfl

theorem sonarBlock_altHoldThrottleAdjustment (env : Env) (b : Int) (st : AltState) :
    (sonarBlock env b st).altHoldThrottleAdjustment =
      st.altHoldThrottleAdjustment := by
  unfold sonarBlock
  split
  · split <;> rfl
  · rfl

theorem accBlock_altHoldThrottleAdjustment (env : Env) (b : Int) (st : AltState) :
    (accBlock env b st).altHoldThrottleAdjustment = st.altHoldThrottleAdjustment := by
  unfold accBlock
  split <;> rfl

theorem sonarBlock_vel (env : Env) (b : Int) (st : AltState) :
    (sonarBlock env b st).vel = st.vel := by
  unfold sonarBlock
  split
  · split <;> rfl
  · rfl

theorem sonarBlock_accAlt (env : Env) (b : Int) (st : AltState) :
    (sonarBlock env b st).accAlt = st.accAlt := by
  unfold sonarBlock
  split
  · split <;> rfl
  · rfl

/-- Environment of the C1 counterexample: barometer present but not
yet calibrated, ranging sensor absent, accelerometer present with an
empty sample window. -/
def envC1 : Env := { envW with
  baroCalibrationComplete := false
  sensorSonar := false
  sensorAcc := true }

/-- State of the C1 counterexample: a previously published altitude
estimate of 100 cm. -/
def stC1 : AltState := { initialAltState with estimatedAltitude := 100 }

/-- Counterexample to C1: on an accepted tick with the barometer
present and uncalibrated, the claim says the published altitude
estimate is unchanged regardless of which other sensors are present;
but with an accelerometer present the accelerometer block still runs
after the accumulators were zeroed and overwrites estimatedAltitude
(here from 100 to 0). -/
theorem claim_C1_counterexample :
    envC1.sensorBaro = true ∧ envC1.baroCalibrationComplete = false ∧
    ¬(u32sub 25000 stC1.previousTimeUs < BARO_UPDATE_FREQUENCY_40HZ) ∧
    (calculateEstimatedAltitude envC1 stC1 25000).estimatedAltitude ≠
      stC1.estimatedAltitude := by
  refine ⟨rfl, rfl, by decide, ?_⟩
  norm_num [calculateEstimatedAltitude, estAccepted, baroBlock, sonarBlock,
    accBlock, baroAltOf, accZ_tmpOf, u32sub, U32_MOD, BARO_UPDATE_FREQUENCY_40HZ,
    ratTrunc, cdiv, envC1, stC1, initialAltState, envW]

/-- C1 as amended: on an accepted tick with the barometer present and
uncalibrated the call performs exactly one calibration cycle, zeroes
vel and accAlt in the barometer block, and returns before the
velocity, vario and controller stages, so estimatedVario,
altHoldThrottleAdjustment and errorVelocityI are unchanged; the
published altitude estimate is unchanged provided the ranging and
accelerometer blocks, which still run, do not produce one (ranging
absent or its reading out of band, accelerometer absent), and with the
accelerometer absent the zeroed accumulators survive to the end of the
call. -/
theorem claim_C1_uncalibrated_tick (env : Env) (st : AltState) (t : Nat)
    (htick : ¬ u32sub t st.previousTimeUs < BARO_UPDATE_FREQUENCY_40HZ)
    (hb : env.sensorBaro = true) (hcal : env.baroCalibrationComplete = false) :
    didBaroCalibrationCycle env st t = true ∧
    (calculateEstimatedAltitude env st t).estimatedVario = st.estimatedVario ∧
    (calculateEstimatedAltitude env st t).altHoldThrottleAdjustment =
      st.altHoldThrottleAdjustment ∧
    (calculateEstimatedAltitude env st t).errorVelocityI = st.errorVelocityI ∧
    (env.sensorAcc = false → (calculateEstimatedAltitude env st t).vel = 0 ∧
      (calculateEstimatedAltitude env st t).accAlt = 0) ∧
    (env.sensorAcc = false → (env.sensorSonar = false ∨ ¬ sonarInBand env) →
      (calculateEstimatedAltitude env st t).estimatedAltitude =
        st.estimatedAltitude) := by
  have hrw : calculateEstimatedAltitude env st t = accBlock env (baroAltOf env)
      (sonarBlock env (baroAltOf env)
        (baroBlock env { st with previousTimeUs := t % U32_MOD })) := by
    rw [calcEst_accepted env st t htick, estAccepted_uncal env st t _ hb hcal]
  refine ⟨?_, ?_, ?_, ?_, ?_, ?_⟩
  · unfold didBaroCalibrationCycle
    rw [hb, hcal]
    simp [htick]
  · rw [hrw, accBlock_estimatedVario, sonarBlock_estimatedVario,
      baroBlock_estimatedVario]
  · rw [hrw, accBlock_altHoldThrottleAdjustment,
      sonarBlock_altHoldThrottleAdjustment, baroBlock_altHoldThrottleAdjustment]
  · rw [hrw, accBlock_errorVelocityI, sonarBlock_errorVelocityI,
      baroBlock_errorVelocityI]
  · intro hacc
    rw [hrw, accBlock_absent env _ _ hacc, baroBlock_uncal env _ hb hcal]
    exact ⟨sonarBlock_vel env _ _, sonarBlock_accAlt env _ _⟩
  · intro hacc hson
    rw [hrw, accBlock_absent env _ _ hacc]
    rcases hson with hson | hson
    · rw [sonarBlock_absent env _ _ hson, baroBlock_uncal env _ hb hcal]
    · rw [sonarBlock_out env _ _ hson, baroBlock_uncal env _ hb hcal]

/-- Witness for C1 as amended: barometer uncalibrated, all other
sensors absent, at the first accepted tick the estimate and vario are
untouched and the accumulators end the call zeroed. -/
theorem claim_C1_witness :
    (calculateEstimatedAltitude { envC1 with sensorAcc := false } stC1
        25000).estimatedVario = stC1.estimatedVario ∧
    (calculateEstimatedAltitude { envC1 with sensorAcc := false } stC1
        25000).estimatedAltitude = stC1.estimatedAltitude :=
  ⟨(claim_C1_uncalibrated_tick { envC1 with sensorAcc := false } stC1 25000
      (by decide) rfl rfl).2.1,
    (claim_C1_uncalibrated_tick { envC1 with sensorAcc := false } stC1 25000
      (by decide) rfl rfl).2.2.2.2.2 rfl (Or.inl rfl)⟩

theorem estFinal_estimatedAltitude (env : Env) (d : Nat) (b : Int)
    (st4 : AltState) :
    (estFinal env d b st4).estimatedAltitude = st4.estimatedAltitude := by
  unfold estFinal
  dsimp only
  rw [adj_snd_estimatedAltitude]
  exact baroVelBlock_estimatedAltitude env b d st4

/-- C9: on an accepted tick with the barometer present and calibrated
and the accelerometer absent, a positive ranging reading inside the
valid band makes the estimate the truncated linear blend of the
ranging reading and the barometric altitude with transition factor
(sonarMaxAltWithTiltCm - reading) / (sonarMaxAltWithTiltCm -
sonarCfAltCm); at the lower band edge the factor is 1 (pure ranging),
at the upper edge 0 (pure barometric), and any reading outside the
band leaves the barometric value as the estimate. -/
theorem claim_C9_sonar_blend (env : Env) (st : AltState) (t : Nat)
    (htick : ¬ u32sub t st.previousTimeUs < BARO_UPDATE_FREQUENCY_40HZ)
    (hb : env.sensorBaro = true) (hcal : env.baroCalibrationComplete = true)
    (hson : env.sensorSonar = true) (hacc : env.sensorAcc = false)
    (hband : env.sonarCfAltCm < env.sonarMaxAltWithTiltCm) :
    (sonarInBand env →
      (calculateEstimatedAltitude env st t).estimatedAltitude =
        ratTrunc ((env.sonarAltReading : ℚ) * sonarTransition env +
          (env.baroCalculateAltitude : ℚ) * (1 - sonarTransition env))) ∧
    (sonarInBand env → env.sonarAltReading = env.sonarCfAltCm →
      sonarTransition env = 1 ∧
      (calculateEstimatedAltitude env st t).estimatedAltitude =
        env.sonarAltReading) ∧
    (sonarInBand env → env.sonarAltReading = env.sonarMaxAltWithTiltCm →
      sonarTransition env = 0 ∧
      (calculateEstimatedAltitude env st t).estimatedAltitude =
        env.baroCalculateAltitude) ∧
    (¬ sonarInBand env →
      (calculateEstimatedAltitude env st t).estimatedAltitude =
        env.baroCalculateAltitude) := by
  have hb0 : baroAltOf env = env.baroCalculateAltitude := by
    unfold baroAltOf
    rw [hb, hcal]
    simp
  have hchain : (calculateEstimatedAltitude env st t).estimatedAltitude =
      (sonarBlock env (baroAltOf env)
        (baroBlock env { st with previousTimeUs := t % U32_MOD })).estimatedAltitude := by
    rw [calcEst_accepted env st t htick, estAccepted_cal env st t _ (Or.inr hcal),
      accBlock_absent env _ _ hacc, estFinal_estimatedAltitude]
  have hblend : sonarInBand env →
      (calculateEstimatedAltitude env st t).estimatedAltitude =
        ratTrunc ((env.sonarAltReading : ℚ) * sonarTransition env +
          (env.baroCalculateAltitude : ℚ) * (1 - sonarTransition env)) := by
    intro hin
    rw [hchain, sonarBlock_in env _ _ hson hin, hb0]
  refine ⟨hblend, ?_, ?_, ?_⟩
  · intro hin hlo
    have hne : ((env.sonarMaxAltWithTiltCm - env.sonarCfAltCm : Int) : ℚ) ≠ 0 := by
      rw [Int.cast_ne_zero]
      omega
    have ht1 : sonarTransition env = 1 := by
      unfold sonarTransition
      rw [hlo]
      exact div_self hne
    refine ⟨ht1, ?_⟩
    rw [hblend hin, ht1]
    have : (env.sonarAltReading : ℚ) * 1 +
        (env.baroCalculateAltitude : ℚ) * (1 - 1) = (env.sonarAltReading : ℚ) := by
      ring
    rw [this, ratTrunc_intCast]
  · intro hin hhi
    have ht0 : sonarTransition env = 0 := by
      unfold sonarTransition
      rw [hhi]
      simp
    refine ⟨ht0, ?_⟩
    rw [hblend hin, ht0]
    have : (env.sonarAltReading : ℚ) * 0 +
        (env.baroCalculateAltitude : ℚ) * (1 - 0) =
        (env.baroCalculateAltitude : ℚ) := by
      ring
    rw [this, ratTrunc_intCast]
  · intro hout
    rw [hchain, sonarBlock_out env _ _ hout,
      baroBlock_cal env _ hb hcal, hb0]

/-- Witness for C9: reading 100 at the lower band edge of [100, 300]
gives transition factor 1 and a pure ranging estimate of 100. -/
theorem claim_C9_witness :
    sonarTransition envW = 1 ∧
    (calculateEstimatedAltitude envW initialAltState 25000).estimatedAltitude =
      envW.sonarAltReading :=
  (claim_C9_sonar_blend envW initialAltState 25000 (by decide) rfl rfl rfl rfl
    (by decide)).2.1 (by decide) rfl

/-- Environment of the C3 failing input: accelerometer present with an
empty accumulation window, debug mode set to DEBUG_ALTITUDE. -/
def envC3 : Env := { envW with
  sensorAcc := true
  accSumCount := 0
  debugModeIsAltitude := true }

/-- C3, failing input: on an accepted tick with the accelerometer
present and accSumCount = 0 the mean vertical acceleration is indeed
treated as 0 (no contribution), but when the debug mode selects
DEBUG_ALTITUDE the DEBUG_SET tap at altitude.c line 268 evaluates
accSum[2] / accSumCount with divisor 0, so the call does perform a
division by zero, contradicting the claim. -/
theorem claim_C3_division_by_zero :
    envC3.sensorAcc = true ∧ envC3.accSumCount = 0 ∧
    ¬(u32sub 25000 initialAltState.previousTimeUs < BARO_UPDATE_FREQUENCY_40HZ) ∧
    accZ_tmpOf envC3 = 0 ∧
    (0 : Int) ∈ estDivisors envC3 initialAltState 25000 := by
  refine ⟨rfl, rfl, by decide, ?_, by decide⟩
  norm_num [accZ_tmpOf, envC3, envW]
